import Mathlib

/-!
Verification of the camera navigation and animation orchestration subsystem of
the foundershouse1 viewer, as a shallow embedding in Lean 4.

The embedding translates the TypeScript sources:
  * src/core/camera/BoundaryEasing.ts      (easeOutQuart, calculateGeneric)
  * src/core/camera/DragControls.ts        (handlePointerMove, startDrag, stopDrag,
                                            applyMomentum, clampToMapBoundaries)
  * src/constants/mapBoundaries.ts         (MAP_BOUNDARIES, clampToMapBounds)
  * src/core/managers/InteractionManager.ts (handleAnimationInterrupt)
  * src/core/managers/AutoTourManager.ts   (the tour state machine and its timers,
                                            and HelsinkiScene.update in the same file)
  * src/animation poiTransition            (createPOITransition, updatePOITransition,
                                            cancelPOITransition)
  * src/animation/cinematicAnimation.ts    (heavyEaseOut, getAnimationProgress,
                                            updateCinematicAnimation)
  * the idle rotation controller           (createIdleRotation, updateIdleRotation,
                                            resumeIdleRotation)
  * src/core/HelsinkiCameraController.ts   (the two update method implementations)

JavaScript numbers are modelled by ℚ where the code is purely arithmetic and by
ℝ where it uses Math.sqrt / Math.cos / Math.sin (vector normalisation, axis
rotation).  setTimeout timers are modelled as explicit pending-timer data with
an absolute fire time; Date.now() / the scene clock become explicit time
arguments.  Mutation of `this` becomes state passing.
-/

namespace Spec2Proof

/-! ## BoundaryEasing (src/core/camera/BoundaryEasing.ts) -/

/-- Quartic ease-out from BoundaryEasing.ts: `1 - Math.pow(1 - t, 4)`. -/
def easeOutQuart (t : ℚ) : ℚ := 1 - (1 - t) ^ 4

/-- BoundaryEasing.calculateGeneric.  `softBoundaryZone` is the instance field
(default 0.20); the remaining arguments are the method's parameters.  The code
returns 1 for a degenerate range, and applies `easeOutQuart` to the fractional
distance from the approached boundary when that distance is inside the soft
zone and non-negative. -/
def calculateGeneric (softBoundaryZone currentValue minValue maxValue : ℚ)
    (movingTowardsMin : Bool) : ℚ :=
  let range := maxValue - minValue
  if range ≤ 0 then 1
  else
    let softZoneSize := range * softBoundaryZone
    if movingTowardsMin then
      let distanceFromMin := currentValue - minValue
      if distanceFromMin < softZoneSize ∧ 0 ≤ distanceFromMin then
        easeOutQuart (distanceFromMin / softZoneSize)
      else 1
    else
      let distanceFromMax := maxValue - currentValue
      if distanceFromMax < softZoneSize ∧ 0 ≤ distanceFromMax then
        easeOutQuart (distanceFromMax / softZoneSize)
      else 1

/-- The signed distance from the boundary the motion is approaching, as the code
computes it: `currentValue - minValue` when moving towards the minimum,
`maxValue - currentValue` otherwise. -/
def distToBoundary (currentValue minValue maxValue : ℚ) (movingTowardsMin : Bool) : ℚ :=
  if movingTowardsMin then currentValue - minValue else maxValue - currentValue

theorem calculateGeneric_eq (zone c mn mx : ℚ) (mtm : Bool) :
    calculateGeneric zone c mn mx mtm =
      if mx - mn ≤ 0 then 1
      else if distToBoundary c mn mx mtm < (mx - mn) * zone ∧ 0 ≤ distToBoundary c mn mx mtm
        then easeOutQuart (distToBoundary c mn mx mtm / ((mx - mn) * zone))
        else 1 := by
  cases mtm <;> simp [calculateGeneric, distToBoundary]

theorem easeOutQuart_nonneg {t : ℚ} (h0 : 0 ≤ t) (h1 : t ≤ 1) : 0 ≤ easeOutQuart t := by
  have h : (1 - t) ^ 4 ≤ 1 :=
    pow_le_one₀ (by linarith : (0:ℚ) ≤ 1 - t) (by linarith : (1:ℚ) - t ≤ 1)
  simp only [easeOutQuart]
  linarith

theorem easeOutQuart_le_one (t : ℚ) : easeOutQuart t ≤ 1 := by
  have h : 0 ≤ (1 - t) ^ 4 := by positivity
  simp only [easeOutQuart]
  linarith

theorem easeOutQuart_mono {s t : ℚ} (hst : s ≤ t) (ht : t ≤ 1) :
    easeOutQuart s ≤ easeOutQuart t := by
  have h : (1 - t) ^ 4 ≤ (1 - s) ^ 4 :=
    pow_le_pow_left₀ (by linarith : (0:ℚ) ≤ 1 - t) (by linarith : 1 - t ≤ 1 - s) 4
  simp only [easeOutQuart]
  linarith

theorem easeOutQuart_eq_zero_iff {t : ℚ} (h0 : 0 ≤ t) (h1 : t < 1) :
    easeOutQuart t = 0 ↔ t = 0 := by
  constructor
  · intro h
    by_contra hne
    have htpos : 0 < t := lt_of_le_of_ne h0 (Ne.symm hne)
    have hlt : (1 - t) ^ 4 < 1 := by
      have h1t : 1 - t < 1 := by linarith
      have h0t : 0 ≤ 1 - t := by linarith
      calc (1 - t) ^ 4 ≤ (1 - t) ^ 1 := pow_le_pow_of_le_one h0t (by linarith) (by norm_num)
        _ = 1 - t := pow_one _
        _ < 1 := h1t
    simp only [easeOutQuart] at h
    linarith
  · intro h
    simp [easeOutQuart, h]

/-- C4: for all inputs, `calculateGeneric current min max movingTowardsMin`
returns 1 when max ≤ min; returns 1 when the distance from the approached
boundary is at least softBoundaryZone × (max − min); inside the soft zone (at a
non-negative distance) it returns 1 − (1 − t)^4 for t the distance divided by
the soft-zone width; its value always lies in [0,1]; for a non-degenerate range
it equals 0 exactly at the approached boundary; and it is monotonically
non-decreasing in the distance from the boundary. -/
theorem C4_calculateGeneric_spec (zone c mn mx : ℚ) (mtm : Bool) (hz : 0 < zone) :
    (mx ≤ mn → calculateGeneric zone c mn mx mtm = 1)
    ∧ (zone * (mx - mn) ≤ distToBoundary c mn mx mtm →
        calculateGeneric zone c mn mx mtm = 1)
    ∧ (0 ≤ distToBoundary c mn mx mtm → distToBoundary c mn mx mtm < zone * (mx - mn) →
        calculateGeneric zone c mn mx mtm
          = 1 - (1 - distToBoundary c mn mx mtm / ((mx - mn) * zone)) ^ 4)
    ∧ (0 ≤ calculateGeneric zone c mn mx mtm ∧ calculateGeneric zone c mn mx mtm ≤ 1)
    ∧ (mn < mx →
        (calculateGeneric zone c mn mx mtm = 0 ↔ distToBoundary c mn mx mtm = 0))
    ∧ (∀ c₁ c₂ : ℚ, 0 ≤ distToBoundary c₁ mn mx mtm →
        distToBoundary c₁ mn mx mtm ≤ distToBoundary c₂ mn mx mtm →
        calculateGeneric zone c₁ mn mx mtm ≤ calculateGeneric zone c₂ mn mx mtm) := by
  have key : ∀ x : ℚ, calculateGeneric zone x mn mx mtm =
      if mx - mn ≤ 0 then 1
      else if distToBoundary x mn mx mtm < (mx - mn) * zone ∧ 0 ≤ distToBoundary x mn mx mtm
        then easeOutQuart (distToBoundary x mn mx mtm / ((mx - mn) * zone))
        else 1 := fun x => calculateGeneric_eq zone x mn mx mtm
  refine ⟨?_, ?_, ?_, ?_, ?_, ?_⟩
  · intro h
    rw [key c, if_pos (by linarith)]
  · intro h
    rw [key c]
    by_cases hr : mx - mn ≤ 0
    · rw [if_pos hr]
    · rw [if_neg hr, if_neg]
      rintro ⟨h1, _⟩
      rw [mul_comm] at h1
      exact absurd h1 (not_lt.mpr h)
  · intro h0 hlt
    have hr : ¬ mx - mn ≤ 0 := by
      by_contra hc
      have : zone * (mx - mn) ≤ 0 := mul_nonpos_of_nonneg_of_nonpos hz.le (by linarith)
      linarith
    rw [key c, if_neg hr, if_pos ⟨by rw [mul_comm]; exact hlt, h0⟩, easeOutQuart]
  · rw [key c]
    by_cases hr : mx - mn ≤ 0
    · rw [if_pos hr]; norm_num
    · rw [if_neg hr]
      by_cases hb : distToBoundary c mn mx mtm < (mx - mn) * zone ∧ 0 ≤ distToBoundary c mn mx mtm
      · rw [if_pos hb]
        have hzp : 0 < (mx - mn) * zone := mul_pos (by linarith) hz
        have ht0 : 0 ≤ distToBoundary c mn mx mtm / ((mx - mn) * zone) :=
          div_nonneg hb.2 hzp.le
        have ht1 : distToBoundary c mn mx mtm / ((mx - mn) * zone) ≤ 1 :=
          (div_le_one hzp).mpr hb.1.le
        exact ⟨easeOutQuart_nonneg ht0 ht1, easeOutQuart_le_one _⟩
      · rw [if_neg hb]; norm_num
  · intro hmm
    have hr : ¬ mx - mn ≤ 0 := by linarith
    have hzp : 0 < (mx - mn) * zone := mul_pos (by linarith) hz
    rw [key c, if_neg hr]
    by_cases hb : distToBoundary c mn mx mtm < (mx - mn) * zone ∧ 0 ≤ distToBoundary c mn mx mtm
    · rw [if_pos hb]
      have ht0 : 0 ≤ distToBoundary c mn mx mtm / ((mx - mn) * zone) :=
        div_nonneg hb.2 hzp.le
      have ht1 : distToBoundary c mn mx mtm / ((mx - mn) * zone) < 1 :=
        (div_lt_one hzp).mpr hb.1
      rw [easeOutQuart_eq_zero_iff ht0 ht1, div_eq_zero_iff]
      constructor
      · rintro (h | h)
        · exact h
        · exact absurd h (by linarith)
      · intro h; exact Or.inl h
    · rw [if_neg hb]
      constructor
      · intro h; exact absurd h (by norm_num)
      · intro h
        exact absurd ⟨by rw [h]; exact hzp, by rw [h]⟩ hb
  · intro c₁ c₂ h0 hle
    rw [key c₁, key c₂]
    by_cases hr : mx - mn ≤ 0
    · rw [if_pos hr, if_pos hr]
    · rw [if_neg hr, if_neg hr]
      have hzp : 0 < (mx - mn) * zone := mul_pos (by linarith) hz
      by_cases hb1 : distToBoundary c₁ mn mx mtm < (mx - mn) * zone ∧ 0 ≤ distToBoundary c₁ mn mx mtm
      · rw [if_pos hb1]
        by_cases hb2 : distToBoundary c₂ mn mx mtm < (mx - mn) * zone ∧ 0 ≤ distToBoundary c₂ mn mx mtm
        · rw [if_pos hb2]
          refine easeOutQuart_mono ?_ ?_
          · exact (div_le_div_iff_of_pos_right hzp).mpr hle
          · exact (div_le_one hzp).mpr hb2.1.le
        · rw [if_neg hb2]
          exact easeOutQuart_le_one _
      · rw [if_neg hb1]
        have hb2 : ¬ (distToBoundary c₂ mn mx mtm < (mx - mn) * zone ∧
            0 ≤ distToBoundary c₂ mn mx mtm) := by
          rintro ⟨h1, _⟩
          exact hb1 ⟨lt_of_le_of_lt hle h1, h0⟩
        rw [if_neg hb2]

/-- Witness for C4 at zone = 1/5 (the default 0.20), current = 25, range [0, 100],
moving towards the minimum. -/
theorem C4_calculateGeneric_spec_witness :
    (0:ℚ) < 1/5 ∧ (0 ≤ calculateGeneric (1/5) 25 0 100 true
      ∧ calculateGeneric (1/5) 25 0 100 true ≤ 1) :=
  ⟨by norm_num, (C4_calculateGeneric_spec (1/5) 25 0 100 true (by norm_num)).2.2.2.1⟩

/-! ## POI transition animation (animation module, poiTransition) -/

/-- A three.js Vector3 in the purely rational parts of the code. -/
structure Vec3Q where
  x : ℚ
  y : ℚ
  z : ℚ
deriving DecidableEq, Repr

/-- Vector3.lerpVectors a b t, componentwise a + (b − a)·t. -/
def lerpVectorsQ (a b : Vec3Q) (t : ℚ) : Vec3Q :=
  ⟨a.x + (b.x - a.x) * t, a.y + (b.y - a.y) * t, a.z + (b.z - a.z) * t⟩

/-- easeInOutCubic from the POI transition controller:
`t < 0.5 ? 4t³ : 1 − (−2t + 2)³ / 2`. -/
def easeInOutCubic (t : ℚ) : ℚ :=
  if t < 1/2 then 4 * t ^ 3 else 1 - (-2 * t + 2) ^ 3 / 2

/-- POITransitionState.  The onComplete callback is embedded as a counter of
its invocations. -/
structure POITransitionState where
  isAnimating : Bool
  startTime : ℚ
  duration : ℚ
  startPosition : Vec3Q
  startTarget : Vec3Q
  targetPosition : Vec3Q
  targetLookAt : Vec3Q
  onCompleteCalls : ℕ
deriving DecidableEq

/-- The camera position and the controls target, the two pieces of camera state
updatePOITransition writes. -/
structure POICamera where
  position : Vec3Q
  target : Vec3Q
deriving DecidableEq

/-- updatePOITransition: driven by the absolute time `currentTime`; progress is
`min ((currentTime − startTime) / duration) 1`.  Returns the `stillAnimating`
flag together with the updated transition state and camera. -/
def updatePOITransition (transition : POITransitionState) (cam : POICamera)
    (currentTime : ℚ) : Bool × POITransitionState × POICamera :=
  if transition.isAnimating = false then (false, transition, cam)
  else
    let elapsed := currentTime - transition.startTime
    let progress := min (elapsed / transition.duration) 1
    let easedProgress := easeInOutCubic progress
    let pos := lerpVectorsQ transition.startPosition transition.targetPosition easedProgress
    let tgt := lerpVectorsQ transition.startTarget transition.targetLookAt easedProgress
    let cam1 : POICamera := ⟨pos, tgt⟩
    if 1 ≤ progress then
      let tr1 := { transition with isAnimating := false,
                                   onCompleteCalls := transition.onCompleteCalls + 1 }
      (false, tr1, cam1)
    else
      (true, transition, cam1)

/-- cancelPOITransition sets isAnimating to false and nothing else. -/
def cancelPOITransition (transition : POITransitionState) : POITransitionState :=
  { transition with isAnimating := false }

/-- Run updatePOITransition once per entry of a list of call times, collecting
the returned flags. -/
def poiRun (transition : POITransitionState) (cam : POICamera) :
    List ℚ → List Bool × POITransitionState × POICamera
  | [] => ([], transition, cam)
  | t :: ts =>
    let r := updatePOITransition transition cam t
    let rest := poiRun r.2.1 r.2.2 ts
    (r.1 :: rest.1, rest.2)

theorem poiProgress_lt_one {e d : ℚ} (hd : 0 < d) (h : e < d) : ¬ (1 ≤ min (e / d) 1) := by
  intro hc
  have h1 : (1:ℚ) ≤ e / d := (le_min_iff.mp hc).1
  have h2 := (le_div_iff₀ hd).mp h1
  linarith

theorem poiProgress_ge_one {e d : ℚ} (hd : 0 < d) (h : d ≤ e) : 1 ≤ min (e / d) 1 := by
  refine le_min_iff.mpr ⟨?_, le_refl 1⟩
  exact (le_div_iff₀ hd).mpr (by linarith)

theorem updatePOITransition_live_lt (tr : POITransitionState) (cam : POICamera) (t : ℚ)
    (hlive : tr.isAnimating = true) (hd : 0 < tr.duration)
    (h : t - tr.startTime < tr.duration) :
    (updatePOITransition tr cam t).1 = true ∧ (updatePOITransition tr cam t).2.1 = tr := by
  unfold updatePOITransition
  rw [hlive]
  simp only [Bool.true_eq_false, if_neg (by simp : ¬ (true = false))]
  rw [if_neg (poiProgress_lt_one hd h)]
  exact ⟨rfl, rfl⟩

theorem updatePOITransition_live_ge (tr : POITransitionState) (cam : POICamera) (t : ℚ)
    (hlive : tr.isAnimating = true) (hd : 0 < tr.duration)
    (h : tr.duration ≤ t - tr.startTime) :
    (updatePOITransition tr cam t).1 = false
      ∧ (updatePOITransition tr cam t).2.1.isAnimating = false
      ∧ (updatePOITransition tr cam t).2.1.onCompleteCalls = tr.onCompleteCalls + 1 := by
  unfold updatePOITransition
  rw [hlive]
  simp only [Bool.true_eq_false, if_neg (by simp : ¬ (true = false))]
  rw [if_pos (poiProgress_ge_one hd h)]
  exact ⟨rfl, rfl, rfl⟩

theorem updatePOITransition_dead (tr : POITransitionState) (cam : POICamera) (t : ℚ)
    (hdead : tr.isAnimating = false) :
    updatePOITransition tr cam t = (false, tr, cam) := by
  unfold updatePOITransition
  rw [hdead]
  simp

theorem poiRun_dead (tr : POITransitionState) (cam : POICamera) (ts : List ℚ)
    (hdead : tr.isAnimating = false) :
    (poiRun tr cam ts).1 = List.replicate ts.length false
      ∧ (poiRun tr cam ts).2.1 = tr := by
  induction ts generalizing cam with
  | nil => exact ⟨rfl, rfl⟩
  | cons t ts ih =>
    have h := updatePOITransition_dead tr cam t hdead
    simp only [poiRun, h]
    exact ⟨by simp [(ih cam).1, List.replicate_succ], (ih cam).2⟩

/-- C9: updatePOITransition, driven by absolute elapsed time, returns true on
every call whose progress is strictly below 100% (leaving the state untouched);
at the first call whose progress reaches 100% it returns false, sets
isAnimating to false and invokes onComplete; a retired transition is returned
unchanged; and over any sequence of call times the returned flags are true
exactly on the longest prefix of calls with progress below 100% and false from
the first call reaching 100% onwards, with onComplete invoked exactly once when
such a call exists. -/
theorem C9_updatePOITransition_lifecycle (tr : POITransitionState)
    (hlive : tr.isAnimating = true) (hd : 0 < tr.duration) :
    (∀ (cam : POICamera) (t : ℚ), t - tr.startTime < tr.duration →
        (updatePOITransition tr cam t).1 = true ∧ (updatePOITransition tr cam t).2.1 = tr)
    ∧ (∀ (cam : POICamera) (t : ℚ), tr.duration ≤ t - tr.startTime →
        (updatePOITransition tr cam t).1 = false
          ∧ (updatePOITransition tr cam t).2.1.isAnimating = false
          ∧ (updatePOITransition tr cam t).2.1.onCompleteCalls = tr.onCompleteCalls + 1)
    ∧ (∀ (tr2 : POITransitionState) (cam : POICamera) (t : ℚ), tr2.isAnimating = false →
        updatePOITransition tr2 cam t = (false, tr2, cam))
    ∧ (∀ (cam : POICamera) (ts : List ℚ),
        (poiRun tr cam ts).1
          = List.replicate
              (ts.takeWhile fun t => decide (t - tr.startTime < tr.duration)).length true
            ++ List.replicate
              (ts.length
                - (ts.takeWhile fun t => decide (t - tr.startTime < tr.duration)).length)
              false
        ∧ (poiRun tr cam ts).2.1.onCompleteCalls
          = tr.onCompleteCalls
            + (if ts.any (fun t => decide (tr.duration ≤ t - tr.startTime)) then 1 else 0)) := by
  refine ⟨fun cam t h => updatePOITransition_live_lt tr cam t hlive hd h,
    fun cam t h => updatePOITransition_live_ge tr cam t hlive hd h,
    fun tr2 cam t h => updatePOITransition_dead tr2 cam t h, ?_⟩
  intro cam ts
  induction ts generalizing cam with
  | nil => simp [poiRun]
  | cons t ts ih =>
    by_cases h : t - tr.startTime < tr.duration
    · have h1 := updatePOITransition_live_lt tr cam t hlive hd h
      have hig := ih (updatePOITransition tr cam t).2.2
      constructor
      · show (updatePOITransition tr cam t).1
            :: (poiRun (updatePOITransition tr cam t).2.1 (updatePOITransition tr cam t).2.2 ts).1
            = _
        rw [h1.1, h1.2, hig.1, List.takeWhile_cons_of_pos (by simpa using h)]
        simp [List.replicate_succ]
      · show (poiRun (updatePOITransition tr cam t).2.1
            (updatePOITransition tr cam t).2.2 ts).2.1.onCompleteCalls = _
        rw [h1.2, hig.2]
        have hnot : decide (tr.duration ≤ t - tr.startTime) = false := by
          simpa using not_le.mpr h
        simp [hnot]
    · have hge : tr.duration ≤ t - tr.startTime := le_of_not_lt h
      have h1 := updatePOITransition_live_ge tr cam t hlive hd hge
      have hdead := poiRun_dead (updatePOITransition tr cam t).2.1
        (updatePOITransition tr cam t).2.2 ts h1.2.1
      constructor
      · show (updatePOITransition tr cam t).1
            :: (poiRun (updatePOITransition tr cam t).2.1 (updatePOITransition tr cam t).2.2 ts).1
            = _
        rw [h1.1, hdead.1, List.takeWhile_cons_of_neg (by simpa using h)]
        simp [List.replicate_succ]
      · show (poiRun (updatePOITransition tr cam t).2.1
            (updatePOITransition tr cam t).2.2 ts).2.1.onCompleteCalls = _
        rw [hdead.2, h1.2.2]
        have hyes : decide (tr.duration ≤ t - tr.startTime) = true := by simpa using hge
        simp [hyes]

/-- A concrete live POI transition: start time 0, duration 2 s. -/
def poiTr0 : POITransitionState :=
  ⟨true, 0, 2, ⟨0, 0, 0⟩, ⟨0, 0, 0⟩, ⟨10, 0, 0⟩, ⟨5, 0, 0⟩, 0⟩

/-- A concrete camera for the POI transition runs. -/
def poiCam0 : POICamera := ⟨⟨0, 0, 0⟩, ⟨0, 0, 0⟩⟩

/-- Witness for C9: a call at time 1 (progress 50%) returns true and keeps the
transition state untouched. -/
theorem C9_updatePOITransition_lifecycle_witness :
    (updatePOITransition poiTr0 poiCam0 1).1 = true
      ∧ (updatePOITransition poiTr0 poiCam0 1).2.1 = poiTr0 :=
  (C9_updatePOITransition_lifecycle poiTr0 rfl (by norm_num [poiTr0])).1 poiCam0 1
    (by norm_num [poiTr0])

/-! ## AutoTourManager (src/core/managers/AutoTourManager.ts)

window.setTimeout is modelled by a pending-timer record carrying an absolute
fire time and a tag for which callback body was scheduled; Date.now() and the
implicit scheduling instant become an explicit `now` argument.  The class keeps
at most one tour timeout handle (`timeout`) and one inactivity handle
(`inactivityTimer`), matching the two Option fields here. -/

/-- Which callback body a pending tour timeout runs: the 1.5 s delayed start,
a scheduleNext inter-POI delay, the handleCompletion final pause, or the 500 ms
grace resume inside the inactivity callback. -/
inductive TimerAction
  | startFire
  | nextFire
  | completionFire
  | resumeFire
deriving DecidableEq, Repr

/-- One pending window.setTimeout of the tour: absolute fire time plus the
scheduled callback body. -/
structure PendingTimer where
  fireAt : ℚ
  action : TimerAction
deriving DecidableEq, Repr

/-- AutoTourManager state.  POIs are identifiers (keys of POINTS_OF_INTEREST)
modelled as naturals. -/
structure AutoTourManager where
  enabled : Bool
  currentIndex : ℕ
  poiSequence : List ℕ
  inactivityTimeout : ℚ
  finalPoiPause : ℚ
  timeout : Option PendingTimer
  inactivityFireAt : Option ℚ
  lastInteractionTime : ℚ
  isWaitingForNextPOI : Bool
deriving DecidableEq, Repr

/-- The constructor with no config argument: defaults enabled, index 0,
inactivityTimeout 8000 ms, finalPoiPause 3000 ms, no pending timers. -/
def mkAutoTourManager (seq : List ℕ) : AutoTourManager :=
  { enabled := true, currentIndex := 0, poiSequence := seq,
    inactivityTimeout := 8000, finalPoiPause := 3000,
    timeout := none, inactivityFireAt := none,
    lastInteractionTime := 0, isWaitingForNextPOI := false }

/-- AutoTourManager.start: index to 0, waiting flag on, a 1500 ms timeout whose
callback clears the waiting flag and invokes onFlyToNext. -/
def start (m : AutoTourManager) (now : ℚ) : AutoTourManager :=
  { m with currentIndex := 0, isWaitingForNextPOI := true,
           timeout := some ⟨now + 1500, TimerAction.startFire⟩ }

/-- AutoTourManager.stop: disable, clear the waiting flag, cancel the pending
tour timeout; currentIndex is NOT reset. -/
def stop (m : AutoTourManager) : AutoTourManager :=
  { m with enabled := false, isWaitingForNextPOI := false, timeout := none }

/-- AutoTourManager.getNextPOI: null once currentIndex passes the end. -/
def getNextPOI (m : AutoTourManager) : Option ℕ :=
  if m.poiSequence.length ≤ m.currentIndex then none
  else m.poiSequence[m.currentIndex]?

/-- AutoTourManager.advance. -/
def advance (m : AutoTourManager) : AutoTourManager :=
  { m with currentIndex := m.currentIndex + 1 }

/-- AutoTourManager.isComplete. -/
def isComplete (m : AutoTourManager) : Bool :=
  m.poiSequence.length ≤ m.currentIndex

/-- AutoTourManager.reset. -/
def reset (m : AutoTourManager) : AutoTourManager :=
  { m with currentIndex := 0 }

/-- AutoTourManager.scheduleNext with its default 1500 ms delay parameter: a
no-op (clearing the waiting flag) when disabled, otherwise a pending inter-POI
timeout. -/
def scheduleNext (m : AutoTourManager) (now delay : ℚ) : AutoTourManager :=
  if m.enabled = false then { m with isWaitingForNextPOI := false }
  else { m with isWaitingForNextPOI := true,
                timeout := some ⟨now + delay, TimerAction.nextFire⟩ }

/-- AutoTourManager.handleCompletion: waiting flag on and a finalPoiPause
timeout whose callback resets the index, clears the flag and invokes
onRestart. -/
def handleCompletion (m : AutoTourManager) (now : ℚ) : AutoTourManager :=
  { m with isWaitingForNextPOI := true,
           timeout := some ⟨now + m.finalPoiPause, TimerAction.completionFire⟩ }

/-- AutoTourManager.startInactivityTimer: clears any previous inactivity timer,
records the interaction time, and arms one inactivity check inactivityTimeout
milliseconds later. -/
def startInactivityTimer (m : AutoTourManager) (now : ℚ) : AutoTourManager :=
  { m with inactivityFireAt := some (now + m.inactivityTimeout),
           lastInteractionTime := now }

/-- AutoTourManager.clearInactivityTimer. -/
def clearInactivityTimer (m : AutoTourManager) : AutoTourManager :=
  { m with inactivityFireAt := none }

/-- AutoTourManager.recordInteraction: updates lastInteractionTime only; the
pending inactivity timer is neither cancelled nor re-armed. -/
def recordInteraction (m : AutoTourManager) (now : ℚ) : AutoTourManager :=
  { m with lastInteractionTime := now }

/-- The state mutation done by a tour timeout callback before it invokes the
driver callback (onFlyToNext / onRestart / onResume): the completion callback
additionally resets the index.  The fired one-shot handle is consumed. -/
def fireTimeoutPre (m : AutoTourManager) (a : TimerAction) : AutoTourManager :=
  match a with
  | TimerAction.completionFire =>
      { m with currentIndex := 0, isWaitingForNextPOI := false, timeout := none }
  | _ => { m with isWaitingForNextPOI := false, timeout := none }

/-- The body of the inactivity setTimeout callback, firing at `now`: when at
least inactivityTimeout has passed since the last recorded interaction it
re-enables the tour (resetting the index only when complete) and arms the
500 ms grace resume; otherwise it does nothing.  Either way the one-shot
inactivity handle is consumed and never re-armed. -/
def fireInactivityTimer (m : AutoTourManager) (now : ℚ) : AutoTourManager :=
  let m0 := { m with inactivityFireAt := none }
  if m.inactivityTimeout ≤ now - m.lastInteractionTime then
    let m1 := { m0 with enabled := true, isWaitingForNextPOI := true }
    let m2 := if isComplete m1 then reset m1 else m1
    { m2 with timeout := some ⟨now + 500, TimerAction.resumeFire⟩ }
  else m0

/-- Modelled from the spec: the scene-side driver that wires AutoTourManager to
focusPOI is not among the repository's files (only the manager is), so the
orchestration loop follows spec §4.4/§4.5: every tour timeout callback ends by
flying to the POI at currentIndex (a visit, recorded as fire-time × POI); the
POI transition then runs for `transitionDur` seconds, and on its completion the
driver advances the index and either calls handleCompletion (sequence
exhausted) or scheduleNext with the default 1500 ms delay. -/
def tourDriverRun (transitionDur : ℚ) : List Unit → AutoTourManager → List (ℚ × ℕ)
  | [], _ => []
  | _ :: fuel, m =>
    match m.timeout with
    | none => []
    | some tm =>
      let m1 := fireTimeoutPre m tm.action
      match getNextPOI m1 with
      | none => []
      | some p =>
        let tEnd := tm.fireAt + transitionDur
        let m2 := advance m1
        let m3 := if isComplete m2 then handleCompletion m2 tEnd
                  else scheduleNext m2 tEnd 1500
        (tm.fireAt, p) :: tourDriverRun transitionDur fuel m3

/-- C2: for the sequence [A, B, C] the started tour first visits A (after the
initial 1500 ms start delay), each later POI is scheduled 1500 ms after the
previous transition completes, and on exhaustion handleCompletion waits the
default 3000 ms final pause, resets currentIndex to 0 (its callback fires with
index 0) and restarts from A: visits fall at 1500, 3000 + D, 4500 + 2D and
7500 + 3D for transition duration D; the completion callback always resets the
index to 0 and advance only ever moves the index forward by one. -/
theorem C2_autoTour_schedule (a b c : ℕ) (D : ℚ) :
    tourDriverRun D [(), (), (), ()] (start (mkAutoTourManager [a, b, c]) 0)
      = [(1500, a), (3000 + D, b), (4500 + 2 * D, c), (7500 + 3 * D, a)]
    ∧ (∀ m : AutoTourManager,
        (fireTimeoutPre m TimerAction.completionFire).currentIndex = 0)
    ∧ (∀ m : AutoTourManager, (advance m).currentIndex = m.currentIndex + 1) := by
  refine ⟨?_, fun m => rfl, fun m => rfl⟩
  norm_num [tourDriverRun, start, mkAutoTourManager, fireTimeoutPre, getNextPOI,
    advance, isComplete, scheduleNext, handleCompletion, reset]
  constructor
  · ring
  constructor
  · ring
  · ring

/-- Counterexample to C3 as stated.  Interaction at time 0 stops the tour and
arms the inactivity timer; a recordInteraction at time 4000 then falls inside
the window.  When the single armed inactivity check fires at time 8000 its
guard (8000 − 4000 ≥ 8000) fails, so it does nothing and is never re-armed:
the tour stays disabled with no pending timer of any kind, although the window
from 4000 onwards is silent for far more than 8000 ms — so the claimed
"any 8000 ms silent window after the timer was started leads to resumption"
fails at this input. -/
theorem C3_counterexample :
    ((fireInactivityTimer
        (recordInteraction
          (startInactivityTimer (stop { mkAutoTourManager [7, 8, 9] with currentIndex := 1 }) 0)
          4000)
        8000).enabled = false)
    ∧ ((fireInactivityTimer
        (recordInteraction
          (startInactivityTimer (stop { mkAutoTourManager [7, 8, 9] with currentIndex := 1 }) 0)
          4000)
        8000).timeout = none)
    ∧ ((fireInactivityTimer
        (recordInteraction
          (startInactivityTimer (stop { mkAutoTourManager [7, 8, 9] with currentIndex := 1 }) 0)
          4000)
        8000).inactivityFireAt = none) := by
  norm_num [fireInactivityTimer, recordInteraction, startInactivityTimer, stop,
    mkAutoTourManager, isComplete, reset]

/-- C3 as amended: stop() disables the tour, clears the waiting flag, cancels
the pending tour timeout and preserves currentIndex; startInactivityTimer arms
exactly one inactivity check inactivityTimeout ms later; when that check fires
with no interaction recorded inside the window it re-enables the tour, resets
the index only when the tour had completed, and schedules the 500 ms grace
resume whose callback clears the waiting flag while preserving the index; but
when some interaction was recorded strictly inside the window the check is a
no-op that merely consumes the timer, so the tour does not auto-resume until
startInactivityTimer is called again. -/
theorem C3_interruption_resumption (m : AutoTourManager) (t t1 : ℚ)
    (ht1 : t < t1) :
    ((stop m).enabled = false ∧ (stop m).timeout = none
      ∧ (stop m).isWaitingForNextPOI = false
      ∧ (stop m).currentIndex = m.currentIndex)
    ∧ ((startInactivityTimer m t).inactivityFireAt = some (t + m.inactivityTimeout)
      ∧ (startInactivityTimer m t).lastInteractionTime = t)
    ∧ (let m2 := fireInactivityTimer (startInactivityTimer m t) (t + m.inactivityTimeout)
       m2.enabled = true ∧ m2.isWaitingForNextPOI = true
        ∧ m2.currentIndex = (if isComplete m then 0 else m.currentIndex)
        ∧ m2.timeout = some ⟨t + m.inactivityTimeout + 500, TimerAction.resumeFire⟩
        ∧ m2.inactivityFireAt = none)
    ∧ (∀ mr : AutoTourManager,
        (fireTimeoutPre mr TimerAction.resumeFire).isWaitingForNextPOI = false
          ∧ (fireTimeoutPre mr TimerAction.resumeFire).currentIndex = mr.currentIndex)
    ∧ (fireInactivityTimer (recordInteraction (startInactivityTimer m t) t1)
          (t + m.inactivityTimeout)
        = clearInactivityTimer (recordInteraction (startInactivityTimer m t) t1)) := by
  refine ⟨⟨rfl, rfl, rfl, rfl⟩, ⟨rfl, rfl⟩, ?_, fun mr => ⟨rfl, rfl⟩, ?_⟩
  · have hok : m.inactivityTimeout ≤ t + m.inactivityTimeout - t := by linarith
    by_cases hcm : m.poiSequence.length ≤ m.currentIndex
    · simp [fireInactivityTimer, startInactivityTimer, isComplete, reset, hok, hcm]
    · simp [fireInactivityTimer, startInactivityTimer, isComplete, reset, hok, hcm]
  · have hng : ¬ (m.inactivityTimeout ≤ t + m.inactivityTimeout - t1) := by linarith
    simp [fireInactivityTimer, clearInactivityTimer, recordInteraction,
      startInactivityTimer, hng]

/-- Witness for C3's amended theorem at a concrete manager mid-tour (index 1 of
three POIs), timer armed at t = 0 and an interaction recorded at t1 = 100. -/
theorem C3_interruption_resumption_witness :
    fireInactivityTimer
        (recordInteraction
          (startInactivityTimer ({ mkAutoTourManager [7, 8, 9] with currentIndex := 1 }) 0) 100)
        (0 + ({ mkAutoTourManager [7, 8, 9] with currentIndex := 1 } : AutoTourManager).inactivityTimeout)
      = clearInactivityTimer
          (recordInteraction
            (startInactivityTimer ({ mkAutoTourManager [7, 8, 9] with currentIndex := 1 }) 0) 100) :=
  (C3_interruption_resumption { mkAutoTourManager [7, 8, 9] with currentIndex := 1 } 0 100
    (by norm_num)).2.2.2.2

/-! ## Real-valued vectors

The drag, handoff, cinematic and idle-rotation code uses Math.sqrt, Math.cos
and Math.sin, so these parts are embedded over ℝ. -/

/-- A three.js Vector3 over ℝ. -/
structure Vec3 where
  x : ℝ
  y : ℝ
  z : ℝ

theorem Vec3.ext_iff_mk {a b : Vec3} : a = b ↔ a.x = b.x ∧ a.y = b.y ∧ a.z = b.z := by
  cases a; cases b; simp

/-- Vector3.add. -/
def Vec3.add (a b : Vec3) : Vec3 := ⟨a.x + b.x, a.y + b.y, a.z + b.z⟩

/-- Vector3.sub. -/
def Vec3.sub (a b : Vec3) : Vec3 := ⟨a.x - b.x, a.y - b.y, a.z - b.z⟩

/-- Vector3.multiplyScalar. -/
def Vec3.smul (a : Vec3) (k : ℝ) : Vec3 := ⟨a.x * k, a.y * k, a.z * k⟩

/-- Vector3.lerp (and lerpVectors): a + (b − a)·alpha componentwise. -/
def Vec3.lerp (a b : Vec3) (alpha : ℝ) : Vec3 :=
  ⟨a.x + (b.x - a.x) * alpha, a.y + (b.y - a.y) * alpha, a.z + (b.z - a.z) * alpha⟩

/-- Vector3.length. -/
noncomputable def Vec3.length (a : Vec3) : ℝ := Real.sqrt (a.x ^ 2 + a.y ^ 2 + a.z ^ 2)

/-- Vector3.distanceTo. -/
noncomputable def Vec3.distanceTo (a b : Vec3) : ℝ := (a.sub b).length

/-- Vector3.normalize: three.js divides by `length || 1`, so the zero vector is
left unchanged. -/
noncomputable def Vec3.normalize (a : Vec3) : Vec3 :=
  let l := a.length
  let l1 := if l = 0 then 1 else l
  ⟨a.x / l1, a.y / l1, a.z / l1⟩

/-- Vector3.applyAxisAngle with axis (0, 1, 0): rotation about the world Y
axis, x′ = x cos θ + z sin θ, z′ = −x sin θ + z cos θ. -/
noncomputable def Vec3.rotateY (v : Vec3) (theta : ℝ) : Vec3 :=
  ⟨v.x * Real.cos theta + v.z * Real.sin theta, v.y,
    -v.x * Real.sin theta + v.z * Real.cos theta⟩

/-! ## InteractionManager (src/core/managers/InteractionManager.ts) -/

/-- The state handleAnimationInterrupt reads and writes: the camera position,
the camera's world direction (three.js camera.getWorldDirection, the normalized
view direction), and the controls target (`none` models a null controls.target,
which the code defaults to the origin). -/
structure HandoffState where
  cameraPos : Vec3
  cameraForward : Vec3
  controlsTarget : Option Vec3

/-- What handleAnimationInterrupt produces: its boolean return value, the
camera/target state afterwards, the isPlaying/isAnimating flags of the two
animation states (None models a null state object), and whether the
onClearHighlights callback ran. -/
structure HandoffResult where
  returned : Bool
  cameraPos : Vec3
  controlsTarget : Option Vec3
  cinematicPlaying : Option Bool
  poiAnimating : Option Bool
  highlightsCleared : Bool

/-- InteractionManager.handleAnimationInterrupt.  `cinematicPlaying` and
`poiAnimating` are the isPlaying/isAnimating flags of the two nullable
animation-state arguments. -/
noncomputable def handleAnimationInterrupt (cinematicPlaying poiAnimating : Option Bool)
    (isWaitingForNextPOI : Bool) (s : HandoffState) : HandoffResult :=
  let wasAnimating :=
    cinematicPlaying.getD false || poiAnimating.getD false || isWaitingForNextPOI
  if wasAnimating = false then
    ⟨false, s.cameraPos, s.controlsTarget, cinematicPlaying, poiAnimating, false⟩
  else
    let cin1 := match cinematicPlaying with
      | some true => some false
      | o => o
    let poi1 := match poiAnimating with
      | some true => some false
      | o => o
    let currentTarget := s.controlsTarget.getD ⟨0, 0, 0⟩
    let currentDistance := s.cameraPos.distanceTo currentTarget
    let direction := s.cameraForward
    let newTarget0 := s.cameraPos.add (direction.smul currentDistance)
    let newTarget : Vec3 := ⟨newTarget0.x, max newTarget0.y 10, newTarget0.z⟩
    ⟨true, s.cameraPos, some newTarget, cin1, poi1, true⟩

/-- C1: whenever handleAnimationInterrupt is called while a cinematic is
playing, a POI transition is animating, or the auto-tour waiting flag is set,
the camera position is unchanged, the new controls target is the camera
position plus the world forward direction scaled by the previous
camera-to-target distance with its Y coordinate floor-clamped at 10, and that
Y is always at least 10. -/
theorem C1_handoff_preserves_position (cin poi : Option Bool) (waiting : Bool)
    (s : HandoffState)
    (h : (cin.getD false || poi.getD false || waiting) = true) :
    (handleAnimationInterrupt cin poi waiting s).returned = true
    ∧ (handleAnimationInterrupt cin poi waiting s).cameraPos = s.cameraPos
    ∧ (handleAnimationInterrupt cin poi waiting s).controlsTarget
        = some ⟨s.cameraPos.x
                  + s.cameraForward.x
                    * s.cameraPos.distanceTo (s.controlsTarget.getD ⟨0, 0, 0⟩),
                max (s.cameraPos.y
                  + s.cameraForward.y
                    * s.cameraPos.distanceTo (s.controlsTarget.getD ⟨0, 0, 0⟩)) 10,
                s.cameraPos.z
                  + s.cameraForward.z
                    * s.cameraPos.distanceTo (s.controlsTarget.getD ⟨0, 0, 0⟩)⟩
    ∧ 10 ≤ ((handleAnimationInterrupt cin poi waiting s).controlsTarget.getD ⟨0, 0, 0⟩).y := by
  have hne : ¬ ((cin.getD false || poi.getD false || waiting) = false) := by
    rw [h]; simp
  refine ⟨?_, ?_, ?_, ?_⟩ <;>
    simp [handleAnimationInterrupt, hne, Vec3.add, Vec3.smul, le_max_right]

/-- Witness for C1: a playing cinematic interrupted with the camera at the
origin looking along +Z at a coincident target. -/
theorem C1_handoff_preserves_position_witness :
    (handleAnimationInterrupt (some true) none false
        ⟨⟨0, 0, 0⟩, ⟨0, 0, 1⟩, some ⟨0, 0, 0⟩⟩).returned = true
    ∧ (handleAnimationInterrupt (some true) none false
        ⟨⟨0, 0, 0⟩, ⟨0, 0, 1⟩, some ⟨0, 0, 0⟩⟩).cameraPos
        = (⟨⟨0, 0, 0⟩, ⟨0, 0, 1⟩, some ⟨0, 0, 0⟩⟩ : HandoffState).cameraPos
    ∧ (handleAnimationInterrupt (some true) none false
        ⟨⟨0, 0, 0⟩, ⟨0, 0, 1⟩, some ⟨0, 0, 0⟩⟩).controlsTarget
        = some ⟨(0:ℝ)
                  + 0 * Vec3.distanceTo ⟨0, 0, 0⟩ ((some (⟨0, 0, 0⟩ : Vec3)).getD ⟨0, 0, 0⟩),
                max ((0:ℝ)
                  + 0 * Vec3.distanceTo ⟨0, 0, 0⟩ ((some (⟨0, 0, 0⟩ : Vec3)).getD ⟨0, 0, 0⟩)) 10,
                (0:ℝ)
                  + 1 * Vec3.distanceTo ⟨0, 0, 0⟩ ((some (⟨0, 0, 0⟩ : Vec3)).getD ⟨0, 0, 0⟩)⟩
    ∧ 10 ≤ ((handleAnimationInterrupt (some true) none false
        ⟨⟨0, 0, 0⟩, ⟨0, 0, 1⟩, some ⟨0, 0, 0⟩⟩).controlsTarget.getD ⟨0, 0, 0⟩).y :=
  C1_handoff_preserves_position (some true) none false
    ⟨⟨0, 0, 0⟩, ⟨0, 0, 1⟩, some ⟨0, 0, 0⟩⟩ rfl

/-! ## Map boundaries (src/constants/mapBoundaries.ts) and
DragControls (src/core/camera/DragControls.ts) -/

/-- MAP_BOUNDARIES.x.min = MAP_BOUNDARIES.z.min in the current revision of
mapBoundaries.ts. -/
def MAP_BOUNDARIES_min : ℝ := -10120000000.5

/-- MAP_BOUNDARIES.x.max = MAP_BOUNDARIES.z.max. -/
def MAP_BOUNDARIES_max : ℝ := 10120000000.5

/-- clampToMapBounds from mapBoundaries.ts: componentwise
`Math.max(min, Math.min(max, v))` on x and z. -/
def clampToMapBounds (x z : ℝ) : ℝ × ℝ :=
  (max MAP_BOUNDARIES_min (min MAP_BOUNDARIES_max x),
    max MAP_BOUNDARIES_min (min MAP_BOUNDARIES_max z))

/-- easeOutQuart over ℝ, as DragControls imports it from BoundaryEasing.ts. -/
def easeOutQuartR (t : ℝ) : ℝ := 1 - (1 - t) ^ 4

/-- The x/z extent of the optional THREE.Box3 DragControls clamps against. -/
structure Box2 where
  minX : ℝ
  maxX : ℝ
  minZ : ℝ
  maxZ : ℝ

/-- The state of a DragControls instance together with the camera position,
the camera's world direction (maintained by camera.lookAt) and the orbit
target it mutates.  `hasOrbit = false` models a null `this.orbit`. -/
structure DragState where
  enabled : Bool
  isDragging : Bool
  panSensitivity : ℝ
  rotateSensitivity : ℝ
  friction : ℝ
  velocityThreshold : ℝ
  rotationThreshold : ℝ
  smoothingFactor : ℝ
  velocity : Vec3
  rotationVelocity : ℝ
  lastForward : Vec3
  lastMouseX : ℝ
  lastMouseY : ℝ
  dragTargetPosition : Vec3
  cameraPos : Vec3
  cameraForward : Vec3
  hasOrbit : Bool
  orbitTarget : Vec3
  boundingBox : Option Box2

/-- The fields of a PointerEvent the drag handler reads. -/
structure PointerEventData where
  clientX : ℝ
  clientY : ℝ
  buttons : ℕ

/-- DragControls.clampToMapBoundaries: camera and target x/z clamped to the
bounding box when one is set, otherwise to the static map boundaries; y is not
touched. -/
def clampToMapBoundaries (s : DragState) : DragState :=
  if s.hasOrbit = false then s
  else
    match s.boundingBox with
    | some box =>
        { s with
          cameraPos := ⟨max box.minX (min box.maxX s.cameraPos.x), s.cameraPos.y,
            max box.minZ (min box.maxZ s.cameraPos.z)⟩,
          orbitTarget := ⟨max box.minX (min box.maxX s.orbitTarget.x), s.orbitTarget.y,
            max box.minZ (min box.maxZ s.orbitTarget.z)⟩ }
    | none =>
        let cc := clampToMapBounds s.cameraPos.x s.cameraPos.z
        let ct := clampToMapBounds s.orbitTarget.x s.orbitTarget.z
        { s with
          cameraPos := ⟨cc.1, s.cameraPos.y, cc.2⟩,
          orbitTarget := ⟨ct.1, s.orbitTarget.y, ct.2⟩ }

/-- DragControls.handlePointerMove.  Pointer deltas are taken against the
stored last mouse position; in a left-button drag the horizontal delta sets the
rotation velocity directly (attenuated near the bounding box), the target is
orbited around the camera, the vertical delta is smoothed into the pan velocity
which is applied to dragTargetPosition and the orbit target, and the result is
clamped to the map boundaries. -/
noncomputable def handlePointerMove (s : DragState) (e : PointerEventData) : DragState :=
  if s.hasOrbit = false ∨ s.enabled = false then s
  else
    let deltaX := e.clientX - s.lastMouseX
    let deltaY := e.clientY - s.lastMouseY
    let s0 := { s with lastMouseX := e.clientX, lastMouseY := e.clientY }
    if s.isDragging = true ∧ e.buttons = 1 then
      let cameraDirection := s.cameraForward
      let forward := Vec3.normalize ⟨cameraDirection.x, 0, cameraDirection.z⟩
      let s1 := { s0 with lastForward := forward }
      let ease : ℝ := match s.boundingBox with
        | some box =>
            let margin : ℝ := 40
            let tX := min |s.cameraPos.x - box.minX| |s.cameraPos.x - box.maxX| / margin
            let tZ := min |s.cameraPos.z - box.minZ| |s.cameraPos.z - box.maxZ| / margin
            let t := max 0 (min 1 (min tX tZ))
            easeOutQuartR t
        | none => 1
      let targetRotationVelocity := deltaX * s.rotateSensitivity * ease
      let s2 := { s1 with rotationVelocity := targetRotationVelocity }
      let offsetToTarget := (s2.orbitTarget.sub s2.cameraPos).rotateY s2.rotationVelocity
      let newOrbitTarget := s2.cameraPos.add offsetToTarget
      let s3 := { s2 with orbitTarget := newOrbitTarget,
                          cameraForward := (newOrbitTarget.sub s2.cameraPos).normalize }
      let targetPanZ := deltaY * s.panSensitivity * ease
      let targetVelocity := forward.smul targetPanZ
      let v1 := s3.velocity.lerp targetVelocity s.smoothingFactor
      let s4 := { s3 with velocity := v1,
                          dragTargetPosition := s3.dragTargetPosition.add v1,
                          orbitTarget := s3.orbitTarget.add v1 }
      clampToMapBoundaries s4
    else s0

/-- DragControls.startDrag: raises the dragging flag and stores the pointer
position; velocities are NOT reset. -/
def startDrag (s : DragState) (x y : ℝ) : DragState :=
  { s with isDragging := true, lastMouseX := x, lastMouseY := y }

/-- DragControls.stopDrag. -/
def stopDrag (s : DragState) : DragState := { s with isDragging := false }

/-- DragControls.applyMomentum: decays rotation and pan velocities by the
friction factor while above their thresholds, hard-zeroing them a decade below
threshold, and clamps to the map boundaries. -/
noncomputable def applyMomentum (s : DragState) : DragState :=
  if s.hasOrbit = false ∨ s.isDragging = true then s
  else
    let s1 :=
      if s.rotationThreshold < |s.rotationVelocity| then
        let offsetToTarget := (s.orbitTarget.sub s.cameraPos).rotateY s.rotationVelocity
        let newTarget := s.cameraPos.add offsetToTarget
        let t1 := s.orbitTarget.lerp newTarget 0.3
        let rv := s.rotationVelocity * s.friction
        let rv1 := if |rv| < s.rotationThreshold * 0.1 then 0 else rv
        { s with orbitTarget := t1,
                 cameraForward := (t1.sub s.cameraPos).normalize,
                 rotationVelocity := rv1 }
      else { s with rotationVelocity := 0 }
    let s2 :=
      if s1.velocityThreshold < s1.velocity.length then
        let v := s1.velocity.smul s1.friction
        let v1 : Vec3 := if v.length < s1.velocityThreshold * 0.1 then ⟨0, 0, 0⟩ else v
        { s1 with cameraPos := s1.cameraPos.add s1.velocity,
                  orbitTarget := s1.orbitTarget.add s1.velocity,
                  velocity := v1 }
      else { s1 with velocity := ⟨0, 0, 0⟩ }
    clampToMapBoundaries s2

/-- Camera or target x/z inside the given box. -/
def inBoxXZ (v : Vec3) (b : Box2) : Prop :=
  b.minX ≤ v.x ∧ v.x ≤ b.maxX ∧ b.minZ ≤ v.z ∧ v.z ≤ b.maxZ

/-- Camera or target x/z inside the static MAP_BOUNDARIES. -/
def inStaticBounds (v : Vec3) : Prop :=
  MAP_BOUNDARIES_min ≤ v.x ∧ v.x ≤ MAP_BOUNDARIES_max
    ∧ MAP_BOUNDARIES_min ≤ v.z ∧ v.z ≤ MAP_BOUNDARIES_max

/-- The world bounds in force: the declared bounding box when one is set,
otherwise the static map boundaries. -/
def inWorldBounds (ob : Option Box2) (v : Vec3) : Prop :=
  match ob with
  | some b => inBoxXZ v b
  | none => inStaticBounds v

/-- A set bounding box has non-degenerate x and z ranges. -/
def boxWf (ob : Option Box2) : Prop :=
  ∀ b, ob = some b → b.minX ≤ b.maxX ∧ b.minZ ≤ b.maxZ

theorem clamp_xz_mem {lo hi v : ℝ} (h : lo ≤ hi) :
    lo ≤ max lo (min hi v) ∧ max lo (min hi v) ≤ hi :=
  ⟨le_max_left _ _, max_le h (min_le_left _ _)⟩

theorem clampToMapBoundaries_bounds (s : DragState) (horb : s.hasOrbit = true)
    (hwf : boxWf s.boundingBox) :
    inWorldBounds s.boundingBox (clampToMapBoundaries s).cameraPos
      ∧ inWorldBounds s.boundingBox (clampToMapBoundaries s).orbitTarget := by
  have hno : ¬ (s.hasOrbit = false) := by rw [horb]; simp
  cases hbb : s.boundingBox with
  | some b =>
      have hb := hwf b hbb
      simp only [clampToMapBoundaries, if_neg hno, hbb, inWorldBounds, inBoxXZ]
      exact ⟨⟨(clamp_xz_mem hb.1).1, (clamp_xz_mem hb.1).2,
              (clamp_xz_mem hb.2).1, (clamp_xz_mem hb.2).2⟩,
             ⟨(clamp_xz_mem hb.1).1, (clamp_xz_mem hb.1).2,
              (clamp_xz_mem hb.2).1, (clamp_xz_mem hb.2).2⟩⟩
  | none =>
      have hle : MAP_BOUNDARIES_min ≤ MAP_BOUNDARIES_max := by
        norm_num [MAP_BOUNDARIES_min, MAP_BOUNDARIES_max]
      simp only [clampToMapBoundaries, if_neg hno, hbb, inWorldBounds, inStaticBounds,
        clampToMapBounds]
      exact ⟨⟨(clamp_xz_mem hle).1, (clamp_xz_mem hle).2,
              (clamp_xz_mem hle).1, (clamp_xz_mem hle).2⟩,
             ⟨(clamp_xz_mem hle).1, (clamp_xz_mem hle).2,
              (clamp_xz_mem hle).1, (clamp_xz_mem hle).2⟩⟩

theorem clampToMapBoundaries_preserves_y (s : DragState) :
    (clampToMapBoundaries s).cameraPos.y = s.cameraPos.y
      ∧ (clampToMapBoundaries s).orbitTarget.y = s.orbitTarget.y := by
  by_cases hno : s.hasOrbit = false
  · simp [clampToMapBoundaries, hno]
  · cases hbb : s.boundingBox with
    | some b => simp [clampToMapBoundaries, hno, hbb]
    | none => simp [clampToMapBoundaries, hno, hbb]

/-- C5: after every positional mutation performed by drag handling
(handlePointerMove in a left-button drag) or by momentum (applyMomentum while
not dragging), both the camera position's and the orbit target's x and z lie
within the configured world bounds — the declared bounding box when set,
otherwise the static map boundaries — and the boundary clamping step never
changes any y coordinate. -/
theorem C5_drag_within_bounds (s : DragState) (e : PointerEventData)
    (horb : s.hasOrbit = true) (hwf : boxWf s.boundingBox) :
    (s.enabled = true → s.isDragging = true → e.buttons = 1 →
      inWorldBounds s.boundingBox (handlePointerMove s e).cameraPos
        ∧ inWorldBounds s.boundingBox (handlePointerMove s e).orbitTarget)
    ∧ (s.isDragging = false →
      inWorldBounds s.boundingBox (applyMomentum s).cameraPos
        ∧ inWorldBounds s.boundingBox (applyMomentum s).orbitTarget)
    ∧ (∀ s2 : DragState, (clampToMapBoundaries s2).cameraPos.y = s2.cameraPos.y
        ∧ (clampToMapBoundaries s2).orbitTarget.y = s2.orbitTarget.y) := by
  have hS : ∀ S : DragState, S.hasOrbit = true → S.boundingBox = s.boundingBox →
      inWorldBounds s.boundingBox (clampToMapBoundaries S).cameraPos
        ∧ inWorldBounds s.boundingBox (clampToMapBoundaries S).orbitTarget := by
    intro S h1 h2
    have hb := clampToMapBoundaries_bounds S h1 (by rw [h2]; exact hwf)
    rwa [h2] at hb
  refine ⟨?_, ?_, fun s2 => clampToMapBoundaries_preserves_y s2⟩
  · intro hen hdrag hbtn
    have hg : ¬ (s.hasOrbit = false ∨ s.enabled = false) := by simp [horb, hen]
    have hd : s.isDragging = true ∧ e.buttons = 1 := ⟨hdrag, hbtn⟩
    simp only [handlePointerMove, if_neg hg, if_pos hd]
    exact hS _ (by simp [horb]) (by simp)
  · intro hndrag
    have hg : ¬ (s.hasOrbit = false ∨ s.isDragging = true) := by simp [horb, hndrag]
    simp only [applyMomentum, if_neg hg]
    refine hS _ ?_ ?_
    · simp [apply_ite DragState.hasOrbit, horb]
    · simp [apply_ite DragState.boundingBox]

/-- A DragControls instance with the constructor defaults (sensitivities 0.5
and 0.003, friction 0.96, thresholds 0.001 and 0.00001, smoothing 0.2), no
bounding box, zero velocities, camera behind the origin looking along −Z. -/
def dragS0 : DragState :=
  { enabled := true, isDragging := false, panSensitivity := 0.5,
    rotateSensitivity := 0.003, friction := 0.96, velocityThreshold := 0.001,
    rotationThreshold := 0.00001, smoothingFactor := 0.2,
    velocity := ⟨0, 0, 0⟩, rotationVelocity := 0, lastForward := ⟨0, 0, 0⟩,
    lastMouseX := 0, lastMouseY := 0, dragTargetPosition := ⟨0, 500, 1000⟩,
    cameraPos := ⟨0, 500, 1000⟩, cameraForward := ⟨0, 0, -1⟩,
    hasOrbit := true, orbitTarget := ⟨0, 0, 0⟩, boundingBox := none }

/-- Witness for C5: a left-button drag move on the default instance stays
inside the static map bounds. -/
theorem C5_drag_within_bounds_witness :
    inWorldBounds (dragS0 : DragState).boundingBox
      (handlePointerMove { dragS0 with isDragging := true } ⟨10, 5, 1⟩).cameraPos
    ∧ inWorldBounds (dragS0 : DragState).boundingBox
      (handlePointerMove { dragS0 with isDragging := true } ⟨10, 5, 1⟩).orbitTarget :=
  (C5_drag_within_bounds { dragS0 with isDragging := true } ⟨10, 5, 1⟩ rfl
    (by intro b hb; simp [dragS0] at hb)).1 rfl rfl rfl

theorem clampToMapBoundaries_frame (s : DragState) :
    (clampToMapBoundaries s).velocity = s.velocity
      ∧ (clampToMapBoundaries s).rotationVelocity = s.rotationVelocity
      ∧ (clampToMapBoundaries s).lastMouseX = s.lastMouseX
      ∧ (clampToMapBoundaries s).lastMouseY = s.lastMouseY
      ∧ (clampToMapBoundaries s).isDragging = s.isDragging
      ∧ (clampToMapBoundaries s).enabled = s.enabled
      ∧ (clampToMapBoundaries s).hasOrbit = s.hasOrbit
      ∧ (clampToMapBoundaries s).boundingBox = s.boundingBox
      ∧ (clampToMapBoundaries s).rotateSensitivity = s.rotateSensitivity := by
  by_cases hno : s.hasOrbit = false
  · simp [clampToMapBoundaries, hno]
  · cases hbb : s.boundingBox with
    | some b => simp [clampToMapBoundaries, hno, hbb]
    | none => simp [clampToMapBoundaries, hno, hbb]

theorem handlePointerMove_drag_fields (s : DragState) (e : PointerEventData)
    (hg : ¬ (s.hasOrbit = false ∨ s.enabled = false))
    (hd : s.isDragging = true ∧ e.buttons = 1)
    (hbox : s.boundingBox = none) :
    (handlePointerMove s e).rotationVelocity
        = (e.clientX - s.lastMouseX) * s.rotateSensitivity * 1
      ∧ (handlePointerMove s e).lastMouseX = e.clientX
      ∧ (handlePointerMove s e).lastMouseY = e.clientY
      ∧ (handlePointerMove s e).rotateSensitivity = s.rotateSensitivity
      ∧ (handlePointerMove s e).boundingBox = none
      ∧ (handlePointerMove s e).hasOrbit = s.hasOrbit
      ∧ (handlePointerMove s e).enabled = s.enabled
      ∧ (handlePointerMove s e).isDragging = s.isDragging := by
  simp only [handlePointerMove, if_neg hg, if_pos hd]
  refine ⟨?_, ?_, ?_, ?_, ?_, ?_, ?_, ?_⟩
  · rw [(clampToMapBoundaries_frame _).2.1]
    simp [hbox]
  · rw [(clampToMapBoundaries_frame _).2.2.1]
  · rw [(clampToMapBoundaries_frame _).2.2.2.1]
  · rw [(clampToMapBoundaries_frame _).2.2.2.2.2.2.2.2]
  · rw [(clampToMapBoundaries_frame _).2.2.2.2.2.2.2.1]
    simpa using hbox
  · rw [(clampToMapBoundaries_frame _).2.2.2.2.2.2.1]
  · rw [(clampToMapBoundaries_frame _).2.2.2.2.2.1]
  · rw [(clampToMapBoundaries_frame _).2.2.2.2.1]

/-- Counterexample to C8 as stated.  The gesture startDrag (0,0) → move to
(10,0) → move back to (0,0) → release has zero net pointer movement, yet the
rotation velocity afterwards is −10 · 0.003 = −0.03, far above the 0.00001
stop threshold, because handlePointerMove assigns the last delta's rotation
velocity directly: momentum is not exactly zero after a zero-net-movement
gesture. -/
theorem C8_counterexample :
    (stopDrag (handlePointerMove
        (handlePointerMove (startDrag dragS0 0 0) ⟨10, 0, 1⟩) ⟨0, 0, 1⟩)).rotationVelocity
      = -(3/100)
    ∧ (-(3/100) : ℝ) ≠ 0 := by
  have hg1 : ¬ ((startDrag dragS0 0 0).hasOrbit = false
      ∨ (startDrag dragS0 0 0).enabled = false) := by
    simp [startDrag, dragS0]
  have hd1 : (startDrag dragS0 0 0).isDragging = true
      ∧ (⟨10, 0, 1⟩ : PointerEventData).buttons = 1 := ⟨rfl, rfl⟩
  have hb1 : (startDrag dragS0 0 0).boundingBox = none := rfl
  have f1 := handlePointerMove_drag_fields (startDrag dragS0 0 0) ⟨10, 0, 1⟩ hg1 hd1 hb1
  have hg2 : ¬ ((handlePointerMove (startDrag dragS0 0 0) ⟨10, 0, 1⟩).hasOrbit = false
      ∨ (handlePointerMove (startDrag dragS0 0 0) ⟨10, 0, 1⟩).enabled = false) := by
    rw [f1.2.2.2.2.2.1, f1.2.2.2.2.2.2.1]
    simp [startDrag, dragS0]
  have hd2 : (handlePointerMove (startDrag dragS0 0 0) ⟨10, 0, 1⟩).isDragging = true
      ∧ (⟨0, 0, 1⟩ : PointerEventData).buttons = 1 := by
    rw [f1.2.2.2.2.2.2.2]
    exact ⟨rfl, rfl⟩
  have f2 := handlePointerMove_drag_fields
    (handlePointerMove (startDrag dragS0 0 0) ⟨10, 0, 1⟩) ⟨0, 0, 1⟩ hg2 hd2 f1.2.2.2.2.1
  constructor
  · show (handlePointerMove (handlePointerMove (startDrag dragS0 0 0) ⟨10, 0, 1⟩)
        ⟨0, 0, 1⟩).rotationVelocity = -(3/100)
    rw [f2.1, f1.2.1, f1.2.2.2.1]
    show ((0:ℝ) - 10) * (startDrag dragS0 0 0).rotateSensitivity * 1 = -(3/100)
    norm_num [startDrag, dragS0]
  · norm_num

/-- Pointer-move at the pointer's current position (a zero-length delta) keeps
an exactly-zero momentum state exactly zero and keeps the stored pointer
position. -/
theorem handlePointerMove_zero_delta (s : DragState) (e : PointerEventData)
    (hex : e.clientX = s.lastMouseX) (hey : e.clientY = s.lastMouseY)
    (hv : s.velocity = ⟨0, 0, 0⟩) (hr : s.rotationVelocity = 0) :
    (handlePointerMove s e).velocity = ⟨0, 0, 0⟩
      ∧ (handlePointerMove s e).rotationVelocity = 0
      ∧ (handlePointerMove s e).lastMouseX = e.clientX
      ∧ (handlePointerMove s e).lastMouseY = e.clientY := by
  by_cases hg : s.hasOrbit = false ∨ s.enabled = false
  · simp [handlePointerMove, hg, hv, hr, hex, hey]
  · by_cases hd : s.isDragging = true ∧ e.buttons = 1
    · simp only [handlePointerMove, if_neg hg, if_pos hd]
      refine ⟨?_, ?_, ?_, ?_⟩
      · rw [(clampToMapBoundaries_frame _).1]
        simp [Vec3.lerp, Vec3.smul, hv, hey]
      · rw [(clampToMapBoundaries_frame _).2.1]
        simp [hex]
      · rw [(clampToMapBoundaries_frame _).2.2.1]
      · rw [(clampToMapBoundaries_frame _).2.2.2.1]
    · simp [handlePointerMove, hg, hd, hv, hr, hex, hey]

/-- k pointer-move events at the fixed position (x, y) with the left button
held. -/
noncomputable def zeroDeltaMoves (x y : ℝ) : ℕ → DragState → DragState
  | 0, s => s
  | k + 1, s => zeroDeltaMoves x y k (handlePointerMove s ⟨x, y, 1⟩)

/-- A same-spot drag gesture: press at (x, y), k pointer-move events that do
not move the pointer, release.  k = 0 is a drag that starts and releases
within the same frame. -/
noncomputable def zeroDeltaGesture (x y : ℝ) (k : ℕ) (s : DragState) : DragState :=
  stopDrag (zeroDeltaMoves x y k (startDrag s x y))

/-- A sequence of same-spot drag gestures, each described by its press position
and its number of zero-length move events. -/
noncomputable def runZeroDeltaGestures : List (ℝ × ℝ × ℕ) → DragState → DragState
  | [], s => s
  | (x, y, k) :: gs, s => runZeroDeltaGestures gs (zeroDeltaGesture x y k s)

theorem zeroDeltaMoves_zero (x y : ℝ) (k : ℕ) (s : DragState)
    (hx : s.lastMouseX = x) (hy : s.lastMouseY = y)
    (hv : s.velocity = ⟨0, 0, 0⟩) (hr : s.rotationVelocity = 0) :
    (zeroDeltaMoves x y k s).velocity = ⟨0, 0, 0⟩
      ∧ (zeroDeltaMoves x y k s).rotationVelocity = 0
      ∧ (zeroDeltaMoves x y k s).lastMouseX = x
      ∧ (zeroDeltaMoves x y k s).lastMouseY = y := by
  induction k generalizing s with
  | zero => exact ⟨hv, hr, hx, hy⟩
  | succ k ih =>
    have h := handlePointerMove_zero_delta s ⟨x, y, 1⟩ (by simpa using hx.symm)
      (by simpa using hy.symm) hv hr
    exact ih (handlePointerMove s ⟨x, y, 1⟩) (by simpa using h.2.2.1)
      (by simpa using h.2.2.2) h.1 h.2.1

theorem zeroDeltaGesture_zero (x y : ℝ) (k : ℕ) (s : DragState)
    (hv : s.velocity = ⟨0, 0, 0⟩) (hr : s.rotationVelocity = 0) :
    (zeroDeltaGesture x y k s).velocity = ⟨0, 0, 0⟩
      ∧ (zeroDeltaGesture x y k s).rotationVelocity = 0 := by
  have h := zeroDeltaMoves_zero x y k (startDrag s x y) rfl rfl hv hr
  exact ⟨h.1, h.2.1⟩

/-- applyMomentum keeps an exactly-zero momentum state exactly zero. -/
theorem applyMomentum_zero (s : DragState)
    (hv : s.velocity = ⟨0, 0, 0⟩) (hr : s.rotationVelocity = 0) :
    (applyMomentum s).velocity = ⟨0, 0, 0⟩
      ∧ (applyMomentum s).rotationVelocity = 0 := by
  by_cases hg : s.hasOrbit = false ∨ s.isDragging = true
  · simp [applyMomentum, hg, hv, hr]
  · simp only [applyMomentum, if_neg hg]
    constructor
    · rw [(clampToMapBoundaries_frame _).1]
      simp [apply_ite DragState.velocity, apply_ite DragState.velocityThreshold,
        apply_ite Vec3.length, hv, hr, Vec3.smul, Vec3.length, Real.sqrt_zero]
    · rw [(clampToMapBoundaries_frame _).2.1]
      simp [apply_ite DragState.rotationVelocity, hv, hr]

/-- C8 as amended: for every sequence of same-spot drag gestures — press,
any number of zero-length pointer moves, release — starting from a state with
exactly zero momentum, the momentum state stays exactly zero (pan velocity
(0,0,0) and rotation velocity 0, not merely below threshold), and applyMomentum
keeps it exactly zero; a nonzero intermediate delta (even with zero net
movement) can leave residual velocity, as the counterexample shows. -/
theorem C8_zero_delta_gestures (s : DragState) (gs : List (ℝ × ℝ × ℕ))
    (hv : s.velocity = ⟨0, 0, 0⟩) (hr : s.rotationVelocity = 0) :
    (runZeroDeltaGestures gs s).velocity = ⟨0, 0, 0⟩
      ∧ (runZeroDeltaGestures gs s).rotationVelocity = 0
      ∧ (applyMomentum (runZeroDeltaGestures gs s)).velocity = ⟨0, 0, 0⟩
      ∧ (applyMomentum (runZeroDeltaGestures gs s)).rotationVelocity = 0 := by
  induction gs generalizing s with
  | nil =>
    have h := applyMomentum_zero s hv hr
    exact ⟨hv, hr, h.1, h.2⟩
  | cons g gs ih =>
    obtain ⟨x, y, k⟩ := g
    have h := zeroDeltaGesture_zero x y k s hv hr
    exact ih (zeroDeltaGesture x y k s) h.1 h.2

/-- Witness for C8's amended theorem: two same-spot gestures on the default
instance, one with a single zero-length move in the same frame. -/
theorem C8_zero_delta_gestures_witness :
    (runZeroDeltaGestures [(5, 7, 1), (2, 3, 0)] dragS0).velocity = ⟨0, 0, 0⟩
      ∧ (runZeroDeltaGestures [(5, 7, 1), (2, 3, 0)] dragS0).rotationVelocity = 0
      ∧ (applyMomentum (runZeroDeltaGestures [(5, 7, 1), (2, 3, 0)] dragS0)).velocity = ⟨0, 0, 0⟩
      ∧ (applyMomentum (runZeroDeltaGestures [(5, 7, 1), (2, 3, 0)] dragS0)).rotationVelocity
          = 0 :=
  C8_zero_delta_gestures dragS0 [(5, 7, 1), (2, 3, 0)] rfl rfl

/-! ## HelsinkiCameraController.update (src/core/HelsinkiCameraController.ts)

The class body contains two implementations of `update(deltaSeconds?)`; at
runtime the later "unified" one overrides the earlier one.  Both are embedded.
The enhanced camera-controls backend is modelled by the set of delta values on
which its update throws; the baseline OrbitControls instance by a presence
flag (enableAdvanced disposes it when it installs the backend). -/

/-- The enhanced (camera-controls) backend: `failsAt dt` models its update
throwing when called with dt. -/
structure Backend where
  failsAt : ℚ → Bool

/-- Controller state: the optional enhanced backend and whether the baseline
OrbitControls instance exists. -/
structure ControllerState where
  cameraControls : Option Backend
  orbit : Bool

/-- A JavaScript number passed as deltaSeconds: either non-finite
(NaN/±Infinity, isFinite = false) or the rational value. -/
structure JSDelta where
  isFinite : Bool
  val : ℚ

/-- The first update implementation (the one shadowed at runtime): a
non-finite, zero or negative delta is substituted by 1/60; when the backend's
update throws, the backend is disposed and discarded and OrbitControls is
re-created if absent.  Returns the new controller state and the delta passed
to the backend's update, when one was. -/
def updateFirst (s : ControllerState) (delta : JSDelta) : ControllerState × Option ℚ :=
  match s.cameraControls with
  | some cc =>
    let dt := delta.val
    if delta.isFinite = false ∨ dt ≤ 0 then
      if cc.failsAt (1/60) then ({ cameraControls := none, orbit := true }, some (1/60))
      else (s, some (1/60))
    else
      if cc.failsAt dt then ({ cameraControls := none, orbit := true }, some dt)
      else (s, some dt)
  | none => (s, none)

/-- The second, overriding "unified" update implementation: the same delta
guard, but its catch merely nulls the backend — OrbitControls is NOT
re-created. -/
def updateUnified (s : ControllerState) (delta : JSDelta) : ControllerState × Option ℚ :=
  match s.cameraControls with
  | some cc =>
    let dt := delta.val
    if delta.isFinite = false ∨ dt ≤ 0 then
      if cc.failsAt (1/60) then ({ s with cameraControls := none }, some (1/60))
      else (s, some (1/60))
    else
      if cc.failsAt dt then ({ s with cameraControls := none }, some dt)
      else (s, some dt)
  | none => (s, none)

/-- A backend whose update always throws. -/
def failingBackend : Backend := ⟨fun _ => true⟩

theorem updateUnified_snd (s : ControllerState) (d : JSDelta) :
    (updateUnified s d).2 =
      match s.cameraControls with
      | none => none
      | some _ => some (if d.isFinite = false ∨ d.val ≤ 0 then 1/60 else d.val) := by
  cases hcc : s.cameraControls with
  | none => simp [updateUnified, hcc]
  | some cc =>
    by_cases hval : d.isFinite = false ∨ d.val ≤ 0 <;>
      simp [updateUnified, hcc, hval, apply_ite Prod.snd]

theorem updateFirst_snd (s : ControllerState) (d : JSDelta) :
    (updateFirst s d).2 =
      match s.cameraControls with
      | none => none
      | some _ => some (if d.isFinite = false ∨ d.val ≤ 0 then 1/60 else d.val) := by
  cases hcc : s.cameraControls with
  | none => simp [updateFirst, hcc]
  | some cc =>
    by_cases hval : d.isFinite = false ∨ d.val ≤ 0 <;>
      simp [updateFirst, hcc, hval, apply_ite Prod.snd]

/-- C7: at the failing input — advanced mode active (OrbitControls was disposed
when the backend was installed), a backend that throws, a valid delta — the
overriding unified update catches the throw and discards the backend but
installs no baseline controller, whereas the shadowed first implementation
would have re-created OrbitControls; and in both implementations every delta
actually passed to the backend is positive, a non-finite, zero or negative
delta being substituted by the nominal 1/60 step. -/
theorem C7_update_fallback :
    (updateUnified ⟨some failingBackend, false⟩ ⟨true, 1/30⟩).1.cameraControls = none
    ∧ (updateUnified ⟨some failingBackend, false⟩ ⟨true, 1/30⟩).1.orbit = false
    ∧ (updateFirst ⟨some failingBackend, false⟩ ⟨true, 1/30⟩).1.cameraControls = none
    ∧ (updateFirst ⟨some failingBackend, false⟩ ⟨true, 1/30⟩).1.orbit = true
    ∧ (∀ (s : ControllerState) (d : JSDelta) (dt : ℚ),
        (updateUnified s d).2 = some dt →
          0 < dt
            ∧ ((d.isFinite = false ∨ d.val ≤ 0) → dt = 1/60)
            ∧ (¬ (d.isFinite = false ∨ d.val ≤ 0) → dt = d.val))
    ∧ (∀ (s : ControllerState) (d : JSDelta) (dt : ℚ),
        (updateFirst s d).2 = some dt → 0 < dt) := by
  have key : ∀ (d : JSDelta) (dt : ℚ),
      (if d.isFinite = false ∨ d.val ≤ 0 then (1:ℚ)/60 else d.val) = dt →
        0 < dt
          ∧ ((d.isFinite = false ∨ d.val ≤ 0) → dt = 1/60)
          ∧ (¬ (d.isFinite = false ∨ d.val ≤ 0) → dt = d.val) := by
    intro d dt h
    by_cases hval : d.isFinite = false ∨ d.val ≤ 0
    · rw [if_pos hval] at h
      exact ⟨by rw [← h]; norm_num, fun _ => h.symm, fun hn => absurd hval hn⟩
    · rw [if_neg hval] at h
      have hpos : 0 < d.val := by
        push_neg at hval
        exact hval.2
      exact ⟨by rw [← h]; exact hpos, fun hv => absurd hv hval, fun _ => h.symm⟩
  have hU : updateUnified ⟨some failingBackend, false⟩ ⟨true, 1/30⟩
      = (⟨none, false⟩, some (1/30)) := by
    norm_num [updateUnified, failingBackend]
  have hF : updateFirst ⟨some failingBackend, false⟩ ⟨true, 1/30⟩
      = (⟨none, true⟩, some (1/30)) := by
    norm_num [updateFirst, failingBackend]
  refine ⟨by rw [hU], by rw [hU], by rw [hF], by rw [hF], ?_, ?_⟩
  · intro s d dt h
    rw [updateUnified_snd] at h
    cases hcc : s.cameraControls with
    | none => simp [hcc] at h
    | some cc =>
      simp only [hcc, Option.some.injEq] at h
      exact key d dt h
  · intro s d dt h
    rw [updateFirst_snd] at h
    cases hcc : s.cameraControls with
    | none => simp [hcc] at h
    | some cc =>
      simp only [hcc, Option.some.injEq] at h
      exact (key d dt h).1

/-! ## Cinematic intro (src/animation/cinematicAnimation.ts), idle rotation
(the idle rotation controller) and HelsinkiScene.update (the cinematic/idle
handoff part of the scene file) -/

/-- heavyEaseOut: `1 - Math.pow(1 - t, 5)`. -/
def heavyEaseOut (t : ℝ) : ℝ := 1 - (1 - t) ^ 5

/-- cinematicEaseOut, the exported synonym of heavyEaseOut. -/
def cinematicEaseOut (t : ℝ) : ℝ := heavyEaseOut t

/-- CinematicAnimationState (the isIdleRotating fields are never read by the
embedded code paths and are omitted). -/
structure CinematicAnimationState where
  isPlaying : Bool
  startTime : ℝ
  duration : ℝ
  startPosition : Vec3
  startTarget : Vec3
  endPosition : Vec3
  endTarget : Vec3

/-- getAnimationProgress: 1 when not playing, otherwise
`Math.min((elapsedTime − startTime) / duration, 1.0)`. -/
noncomputable def getAnimationProgress (a : CinematicAnimationState)
    (elapsedTime : ℝ) : ℝ :=
  if a.isPlaying = false then 1
  else min ((elapsedTime - a.startTime) / a.duration) 1

/-- updateCinematicAnimation: returns the stillPlaying flag with the camera
position and controls target it writes.  The controls.update() call it makes
does not move the camera position when no momentum is active and is modelled
as the identity on position. -/
noncomputable def updateCinematicAnimation (a : CinematicAnimationState)
    (camPos controlsTarget : Vec3) (elapsedTime : ℝ) : Bool × Vec3 × Vec3 :=
  if a.isPlaying = false then (false, camPos, controlsTarget)
  else
    let elapsed := elapsedTime - a.startTime
    let rawProgress := min (elapsed / a.duration) 1
    if 1 ≤ rawProgress then (false, a.endPosition, a.endTarget)
    else
      let eased := heavyEaseOut rawProgress
      let pos := a.startPosition.lerp a.endPosition eased
      let currentTarget := a.startTarget.lerp a.endTarget eased
      (true, pos, currentTarget)

/-- IdleRotationState from the idle rotation controller. -/
structure IdleRotationState where
  isActive : Bool
  isPaused : Bool
  startTime : ℝ
  pausedTime : ℝ
  accumulatedTime : ℝ
  rotationSpeed : ℝ
  center : Vec3
  initialOffset : Vec3
  radius : ℝ

/-- createIdleRotation: the offset and radius are sampled from the current
camera position; rotation speed −π/120 rad/s. -/
noncomputable def createIdleRotation (camPos lookAtPoint : Vec3)
    (elapsedTime : ℝ) : IdleRotationState :=
  let offset := camPos.sub lookAtPoint
  { isActive := true, isPaused := false, startTime := elapsedTime, pausedTime := 0,
    accumulatedTime := 0, rotationSpeed := -(Real.pi * 1) / 120,
    center := lookAtPoint, initialOffset := offset, radius := offset.length }

/-- resumeIdleRotation: re-samples offset and radius from the current camera
position, clears the pause flag and restarts the clock at the current time,
but keeps accumulatedTime. -/
noncomputable def resumeIdleRotation (r : IdleRotationState) (camPos : Vec3)
    (elapsedTime : ℝ) : IdleRotationState :=
  let offset := camPos.sub r.center
  { r with initialOffset := offset, radius := offset.length,
           isPaused := false, startTime := elapsedTime }

/-- The tail of updateIdleRotation once it is neither inactive, pausing nor
waiting: rotate the stored offset by (accumulatedTime + elapsedTime −
startTime) · rotationSpeed about Y and place the camera at center + offset,
targeting the center. -/
noncomputable def idleRotateStep (r : IdleRotationState) (elapsedTime : ℝ) :
    Bool × IdleRotationState × Vec3 × Vec3 :=
  let elapsed := r.accumulatedTime + (elapsedTime - r.startTime)
  let angle := elapsed * r.rotationSpeed
  let cosAngle := Real.cos angle
  let sinAngle := Real.sin angle
  let newX := r.initialOffset.x * cosAngle - r.initialOffset.z * sinAngle
  let newZ := r.initialOffset.x * sinAngle + r.initialOffset.z * cosAngle
  let rotatedOffset : Vec3 := ⟨newX, r.initialOffset.y, newZ⟩
  (true, r, r.center.add rotatedOffset, r.center)

/-- updateIdleRotation: result is (stillActive, rotation state, camera
position, controls target).  `isUserInteracting` and `shouldResumeIdle` are
the two controls callbacks it polls. -/
noncomputable def updateIdleRotation (r : IdleRotationState)
    (camPos controlsTarget : Vec3) (isUserInteracting shouldResumeIdle : Bool)
    (elapsedTime : ℝ) : Bool × IdleRotationState × Vec3 × Vec3 :=
  if r.isActive = false then (false, r, camPos, controlsTarget)
  else if isUserInteracting = true then
    if r.isPaused = false then
      let rp := { r with isPaused := true, pausedTime := elapsedTime,
                         accumulatedTime := r.accumulatedTime + (elapsedTime - r.startTime) }
      (true, rp, camPos, controlsTarget)
    else (true, r, camPos, controlsTarget)
  else if r.isPaused = true then
    if shouldResumeIdle = true then
      idleRotateStep (resumeIdleRotation r camPos elapsedTime) elapsedTime
    else (true, r, camPos, controlsTarget)
  else idleRotateStep r elapsedTime

/-- The camera-relevant state of HelsinkiScene.update: the optional cinematic
animation, the optional idle rotation, the camera position and the controls
target. -/
structure SceneState where
  cinematicAnimation : Option CinematicAnimationState
  idleRotation : Option IdleRotationState
  cameraPos : Vec3
  controlsTarget : Vec3

/-- The cinematic/idle part of HelsinkiScene.update at scene clock `elapsed`:
while the cinematic plays, idle rotation is created at the map center (0,0,0)
as soon as progress reaches 80% (once); below 98% progress the cinematic keeps
driving the camera, at or above 98% it is retired; then an active idle rotation
drives the camera.  Fog interpolation, city lights, parallax text, star
shimmer and the final controls.update/render are outside the camera state and
omitted. -/
noncomputable def sceneUpdate (s : SceneState)
    (isUserInteracting shouldResumeIdle : Bool) (elapsed : ℝ) : SceneState :=
  let s1 :=
    match s.cinematicAnimation with
    | some cin =>
      if cin.isPlaying = true then
        let progress := getAnimationProgress cin elapsed
        let idle1 :=
          if 0.80 ≤ progress ∧ s.idleRotation.isNone = true then
            some (createIdleRotation s.cameraPos ⟨0, 0, 0⟩ elapsed)
          else s.idleRotation
        if progress < 0.98 then
          let r := updateCinematicAnimation cin s.cameraPos s.controlsTarget elapsed
          let cin1 := if r.1 = false then { cin with isPlaying := false } else cin
          { s with cinematicAnimation := some cin1, idleRotation := idle1,
                   cameraPos := r.2.1, controlsTarget := r.2.2 }
        else
          { s with cinematicAnimation := some { cin with isPlaying := false },
                   idleRotation := idle1 }
      else s
    | none => s
  match s1.idleRotation with
  | some idle =>
    if idle.isActive = true then
      let r := updateIdleRotation idle s1.cameraPos s1.controlsTarget
        isUserInteracting shouldResumeIdle elapsed
      let idle1 := if r.1 = false then { r.2.1 with isActive := false } else r.2.1
      { s1 with idleRotation := some idle1, cameraPos := r.2.2.1,
                controlsTarget := r.2.2.2 }
    else s1
  | none => s1

theorem getAnimationProgress_le_one (a : CinematicAnimationState) (t : ℝ) :
    getAnimationProgress a t ≤ 1 := by
  rw [getAnimationProgress]
  by_cases h : a.isPlaying = false
  · rw [if_pos h]
  · rw [if_neg h]
    exact min_le_right _ _

theorem getAnimationProgress_playing (a : CinematicAnimationState) (t : ℝ)
    (hp : a.isPlaying = true) :
    getAnimationProgress a t = min ((t - a.startTime) / a.duration) 1 := by
  rw [getAnimationProgress, if_neg (by rw [hp]; simp)]

theorem updateIdleRotation_at_creation (camPos c curPos tgt : Vec3) (t : ℝ) :
    updateIdleRotation (createIdleRotation camPos c t) curPos tgt false false t
      = (true, createIdleRotation camPos c t, c.add (camPos.sub c), c) := by
  simp [updateIdleRotation, createIdleRotation, idleRotateStep]

theorem sceneUpdate_pre80 (s : SceneState) (cin : CinematicAnimationState) (t1 : ℝ)
    (u v : Bool) (hc : s.cinematicAnimation = some cin) (hp : cin.isPlaying = true)
    (hidle : s.idleRotation = none)
    (h1 : getAnimationProgress cin t1 < 0.80) :
    sceneUpdate s u v t1
      = { s with
          cinematicAnimation := some cin,
          cameraPos := cin.startPosition.lerp cin.endPosition
            (heavyEaseOut (getAnimationProgress cin t1)),
          controlsTarget := cin.startTarget.lerp cin.endTarget
            (heavyEaseOut (getAnimationProgress cin t1)) } := by
  have hnp : ¬ (cin.isPlaying = false) := by rw [hp]; simp
  have hno8 : ¬ (0.80 ≤ getAnimationProgress cin t1 ∧ (s.idleRotation).isNone = true) := by
    rintro ⟨ha, -⟩
    exact absurd ha (not_le.mpr h1)
  have h98 : getAnimationProgress cin t1 < 0.98 := lt_trans h1 (by norm_num)
  have hM : ¬ (1 ≤ min ((t1 - cin.startTime) / cin.duration) 1) := by
    rw [← getAnimationProgress_playing cin t1 hp]
    intro hcontra
    linarith
  have hM1 : ¬ (1 ≤ getAnimationProgress cin t1) := by
    intro hcontra
    linarith
  simp only [sceneUpdate, hc, if_pos hp, if_neg hno8, if_pos h98,
    updateCinematicAnimation, if_neg hnp, if_neg hM,
    ← getAnimationProgress_playing cin t1 hp]
  simp [hidle, hM1]

/-- Counterexample input: a playing cinematic, start time 0, duration 3 s. -/
def cin0 : CinematicAnimationState :=
  ⟨true, 0, 3, ⟨100, 1500, 100⟩, ⟨0, 0, 0⟩, ⟨0, 600, 800⟩, ⟨0, 0, 0⟩⟩

/-- An inactive idle-rotation state. -/
def idleInactive : IdleRotationState :=
  ⟨false, false, 0, 0, 0, 0, ⟨0, 0, 0⟩, ⟨0, 0, 0⟩, 0⟩

/-- Counterexample to C6 as stated: the cinematic's progress is clamped at
100% — at elapsed time 4.5 s (150% of the 3 s duration) getAnimationProgress
is 1, not 1.5 — and the scene retires the cinematic at the first frame whose
progress reaches 98%, so no tail motion runs past 100%, let alone up to
150%. -/
theorem C6_counterexample :
    getAnimationProgress cin0 4.5 = 1
    ∧ ¬ ((1.5:ℝ) ≤ getAnimationProgress cin0 4.5)
    ∧ (sceneUpdate ⟨some cin0, some idleInactive, ⟨100, 1500, 100⟩, ⟨0, 0, 0⟩⟩
          false false 2.95).cinematicAnimation
        = some { cin0 with isPlaying := false } := by
  have hprog : getAnimationProgress cin0 4.5 = 1 := by
    rw [getAnimationProgress_playing cin0 4.5 rfl]
    norm_num [cin0]
  refine ⟨hprog, by rw [hprog]; norm_num, ?_⟩
  have hp2 : getAnimationProgress cin0 2.95 = 59/60 := by
    rw [getAnimationProgress_playing cin0 2.95 rfl]
    norm_num [cin0]
  have h59 : ¬ ((59:ℝ)/60 < 0.98) := by norm_num
  simp [sceneUpdate, hp2, h59, show cin0.isPlaying = true from rfl, idleInactive]

theorem sceneUpdate_creation_frame (s2 : SceneState) (cin : CinematicAnimationState)
    (t2 : ℝ) (hc2 : s2.cinematicAnimation = some cin) (hp : cin.isPlaying = true)
    (hidle2 : s2.idleRotation = none)
    (h2 : 0.80 ≤ getAnimationProgress cin t2) :
    (sceneUpdate s2 false false t2).idleRotation
        = some (createIdleRotation s2.cameraPos ⟨0, 0, 0⟩ t2)
      ∧ (sceneUpdate s2 false false t2).cameraPos = s2.cameraPos := by
  have hnp : ¬ (cin.isPlaying = false) := by rw [hp]; simp
  have hyes8 : 0.80 ≤ getAnimationProgress cin t2 ∧ (s2.idleRotation).isNone = true :=
    ⟨h2, by rw [hidle2]; rfl⟩
  by_cases h98 : getAnimationProgress cin t2 < 0.98
  · have hM : ¬ (1 ≤ min ((t2 - cin.startTime) / cin.duration) 1) := by
      rw [← getAnimationProgress_playing cin t2 hp]
      intro hcontra
      linarith
    simp only [sceneUpdate, hc2, if_pos hp, if_pos hyes8, if_pos h98,
      updateCinematicAnimation, if_neg hnp, if_neg hM,
      ← getAnimationProgress_playing cin t2 hp]
    simp [createIdleRotation, updateIdleRotation, idleRotateStep, Vec3.add, Vec3.sub,
      Vec3.ext_iff_mk]
  · simp only [sceneUpdate, hc2, if_pos hp, if_pos hyes8, if_neg h98]
    simp [createIdleRotation, updateIdleRotation, idleRotateStep, Vec3.add, Vec3.sub,
      Vec3.ext_iff_mk]

/-- C6 as amended: during the cinematic intro the idle-rotation state is
created exactly at the first frame whose progress is ≥ 80% (no frame below 80%
creates it), the camera position at the end of the creation frame equals its
position at the end of the previous frame exactly (no discontinuity at the
handoff, well within one frame's expected motion); but the cinematic's
progress is clamped at 100% — it never runs past 100% — and the scene retires
the cinematic at 98%, as the counterexample shows. -/
theorem C6_cinematic_idle_handoff (s : SceneState) (cin : CinematicAnimationState)
    (t1 t2 : ℝ)
    (hc : s.cinematicAnimation = some cin) (hp : cin.isPlaying = true)
    (hidle : s.idleRotation = none)
    (h1 : getAnimationProgress cin t1 < 0.80)
    (h2 : 0.80 ≤ getAnimationProgress cin t2) :
    (sceneUpdate s false false t1).idleRotation = none
    ∧ (sceneUpdate (sceneUpdate s false false t1) false false t2).idleRotation
        = some (createIdleRotation (sceneUpdate s false false t1).cameraPos ⟨0, 0, 0⟩ t2)
    ∧ (sceneUpdate (sceneUpdate s false false t1) false false t2).cameraPos
        = (sceneUpdate s false false t1).cameraPos
    ∧ (∀ t : ℝ, getAnimationProgress cin t ≤ 1) := by
  have hS1 := sceneUpdate_pre80 s cin t1 false false hc hp hidle h1
  have hi1 : (sceneUpdate s false false t1).idleRotation = none := by
    rw [hS1]
    exact hidle
  have hc1 : (sceneUpdate s false false t1).cinematicAnimation = some cin := by
    rw [hS1]
  have hcr := sceneUpdate_creation_frame (sceneUpdate s false false t1) cin t2 hc1 hp hi1 h2
  exact ⟨hi1, hcr.1, hcr.2, fun t => getAnimationProgress_le_one cin t⟩

/-- Witness for C6's amended theorem: cinematic of duration 3 s started at 0,
frames at t1 = 2.397 (progress 0.799) and t2 = 2.403 (progress 0.801). -/
theorem C6_cinematic_idle_handoff_witness :
    ((sceneUpdate ⟨some cin0, none, ⟨100, 1500, 100⟩, ⟨0, 0, 0⟩⟩
        false false 2.397).idleRotation = none)
    ∧ (sceneUpdate (sceneUpdate ⟨some cin0, none, ⟨100, 1500, 100⟩, ⟨0, 0, 0⟩⟩
          false false 2.397) false false 2.403).idleRotation
        = some (createIdleRotation
            (sceneUpdate ⟨some cin0, none, ⟨100, 1500, 100⟩, ⟨0, 0, 0⟩⟩
              false false 2.397).cameraPos ⟨0, 0, 0⟩ 2.403)
    ∧ (sceneUpdate (sceneUpdate ⟨some cin0, none, ⟨100, 1500, 100⟩, ⟨0, 0, 0⟩⟩
          false false 2.397) false false 2.403).cameraPos
        = (sceneUpdate ⟨some cin0, none, ⟨100, 1500, 100⟩, ⟨0, 0, 0⟩⟩
            false false 2.397).cameraPos
    ∧ (∀ t : ℝ, getAnimationProgress cin0 t ≤ 1) :=
  C6_cinematic_idle_handoff ⟨some cin0, none, ⟨100, 1500, 100⟩, ⟨0, 0, 0⟩⟩ cin0
    2.397 2.403 rfl rfl rfl
    (by rw [getAnimationProgress_playing cin0 2.397 rfl]; norm_num [cin0, min_lt_iff])
    (by rw [getAnimationProgress_playing cin0 2.403 rfl]; norm_num [cin0, le_min_iff])

/-- The failing input for C10: an idle rotation that was created at time 0,
ran for 120 s (accumulatedTime 120 at rotation speed −π/120, i.e. half a turn
accumulated), then was paused; during the pause the user moved the camera to
(100, 200, 0). -/
noncomputable def idleR10 : IdleRotationState :=
  { isActive := true, isPaused := true, startTime := 0, pausedTime := 120,
    accumulatedTime := 120, rotationSpeed := -(Real.pi * 1) / 120,
    center := ⟨0, 0, 0⟩, initialOffset := ⟨50, 200, 0⟩,
    radius := (⟨50, 200, 0⟩ : Vec3).length }

/-- C10 fails on the code: resuming at time 120 re-samples the offset from the
camera's position (100, 200, 0), but updateIdleRotation then rotates that
fresh offset by the kept accumulatedTime × rotationSpeed = −π, so the very
first post-resume update moves the camera to (−100, 200, 0) — a half-turn snap
instead of the claimed unchanged position. -/
theorem C10_resume_position_jump :
    (updateIdleRotation idleR10 ⟨100, 200, 0⟩ ⟨0, 0, 0⟩ false true 120).2.2.1
        = ⟨-100, 200, 0⟩
    ∧ ((⟨-100, 200, 0⟩ : Vec3) ≠ ⟨100, 200, 0⟩) := by
  constructor
  · simp only [updateIdleRotation, resumeIdleRotation, idleRotateStep, idleR10,
      Vec3.add, Vec3.sub]
    norm_num [show (120:ℝ) * (-Real.pi / 120) = -Real.pi from by ring,
      Real.cos_pi, Real.sin_pi, Real.cos_neg, Real.sin_neg, Vec3.ext_iff_mk]
  · intro h
    have hx := congrArg Vec3.x h
    norm_num at hx

end Spec2Proof
